import Mathlib

/-!
# Verification of the gsl-pointers reference-proxy library

Shallow embedding of the header-only proxy types `view` / `optional_view`
(src/api/view.hpp), `indirect` / `optional_indirect` (src/api/indirect.hpp),
`optional_ref` (src/api/optional_ref.hpp), `observer` (src/api/observer.hpp)
and `propagate_const` (src/api/propagate_const.hpp).

Modelling conventions:
* A raw C++ pointer `T*` is a `Ptr := Option Nat`: `none` is the null
  pointer, `some a` the address `a` of a live object.  C++ object addresses
  are never null, so a C++ reference `T&` is modelled by the address of its
  referent, a plain `Nat`.
* Throwing operations return `Except CppError _`; non-throwing operations
  are total functions.  Each relevant `noexcept` specifier from the source
  is recorded as a Boolean constant.
* Run-time type information for `dynamic_cast` is modelled by a map from
  addresses to dynamic types over a single-inheritance hierarchy.
-/

namespace GslPointers

/-- A raw C++ pointer value: `none` is the null pointer, `some a` the
address of an object. -/
abbrev Ptr := Option Nat

/-- The error conditions thrown by the library: `std::invalid_argument`
(null pointer given to a non-optional proxy constructor),
`bad_optional_access` (view.hpp lines 40-47), and `std::bad_cast`
(failed `dynamic_cast<T&>`). -/
inductive CppError where
  | invalidArgument (msg : String)
  | badOptionalAccess
  | badCast
deriving DecidableEq, Repr

/-- `std::less` over the common pointer type, as used by the `operator<`
family: the null pointer orders strictly below the address of every
object, and addresses order by their numeric value. -/
def ptrLess : Ptr → Ptr → Bool
  | none, none => false
  | none, some _ => true
  | some _, none => false
  | some a, some b => a < b

/-- `view<T>` (view.hpp lines 62-130): holds `T* target`. -/
structure view where
  target : Ptr
deriving DecidableEq, Repr

/-- `optional_view<T>` (view.hpp lines 198-292): holds `T* target`,
which may be null. -/
structure optional_view where
  target : Ptr
deriving DecidableEq, Repr

/-- `view::throw_if_null` (view.hpp lines 71-80): returns the pointer
unchanged when non-null, otherwise throws `std::invalid_argument`. -/
def view.throw_if_null (p : Ptr) : Except CppError Ptr :=
  match p with
  | none => .error (.invalidArgument "Cannot convert null pointer to view.")
  | some a => .ok (some a)

/-- `view(T& r) : target(&r)` (view.hpp lines 83-86): stores the address
of the referent. -/
def view.of_ref (r : Nat) : view := ⟨some r⟩

/-- `explicit view(T* p) : target(throw_if_null(p))` (view.hpp lines
88-91). -/
def view.of_ptr (p : Ptr) : Except CppError view :=
  (view.throw_if_null p).map view.mk

/-- Converting constructor `view(view<U> const& v) : target(get_pointer(v))`
(view.hpp lines 93-97): copies the stored address. -/
def view.of_view (v : view) : view := ⟨v.target⟩

/-- `explicit view(optional_view<U> const& v) :
target(throw_if_null(get_pointer(v)))` (view.hpp lines 99-103). -/
def view.of_optional_view (o : optional_view) : Except CppError view :=
  (view.throw_if_null o.target).map view.mk

/-- `get_pointer(view<T> const&)` (view.hpp lines 480-484): the stored
address. -/
def view.get_pointer (v : view) : Ptr := v.target

/-- `view::operator*` (view.hpp lines 105-108) returns `*target`, a `T&`;
the returned reference is modelled by its address.  Under the non-null
invariant the result is never `none`. -/
def view.star (v : view) : Ptr := v.target

/-- `view::swap` (view.hpp lines 125-129): exchanges the two stored
addresses; the pair is (updated self, updated other). -/
def view.swap (a b : view) : view × view := (⟨b.target⟩, ⟨a.target⟩)

/-- `operator==(view<T1> const&, view<T2> const&)` (view.hpp lines
138-142): `get_pointer(lhs) == get_pointer(rhs)`. -/
def view.eq (a b : view) : Bool := a.target == b.target

/-- `operator==(view<T1> const&, T2 const&)` (view.hpp lines 144-148):
`get_pointer(lhs) == &rhs`. -/
def view.eq_ref (a : view) (r : Nat) : Bool := a.target == some r

/-- `operator!=(view<T1> const&, T2 const&)` (view.hpp lines 162-166):
`!(lhs == rhs)`. -/
def view.ne_ref (a : view) (r : Nat) : Bool := !(view.eq_ref a r)

/-- `operator<(view<T1> const&, view<T2> const&)` (view.hpp lines
174-178): `std::less` over the common pointer type. -/
def view.lt (a b : view) : Bool := ptrLess a.target b.target

/-- The non-null invariant of the non-optional proxy: `target != null`
always (spec, data model). -/
def view.inv (v : view) : Prop := v.target ≠ none

instance (v : view) : Decidable (view.inv v) := by
  unfold view.inv; infer_instance

/-- `optional_view() : target()` (view.hpp lines 209-212): value-initialises
the pointer to null. -/
def optional_view.default_ctor : optional_view := ⟨none⟩

/-- `optional_view(nullopt_t) : target()` (view.hpp lines 214-217). -/
def optional_view.of_nullopt : optional_view := ⟨none⟩

/-- `optional_view(T& r) : target(&r)` (view.hpp lines 219-222). -/
def optional_view.of_ref (r : Nat) : optional_view := ⟨some r⟩

/-- `explicit optional_view(T* p) : target(p)` (view.hpp lines 229-232):
no null check, `noexcept`. -/
def optional_view.of_ptr (p : Ptr) : optional_view := ⟨p⟩

/-- Converting constructor from `optional_view<U>` (view.hpp lines
234-238). -/
def optional_view.of_optional_view (o : optional_view) : optional_view :=
  ⟨o.target⟩

/-- Converting constructor from `view<U>` (view.hpp lines 240-244). -/
def optional_view.of_view (v : view) : optional_view := ⟨v.target⟩

/-- `get_pointer(optional_view<T> const&)` (view.hpp lines 486-490). -/
def optional_view.get_pointer (o : optional_view) : Ptr := o.target

/-- `explicit operator bool()` (view.hpp lines 246-249):
`target != nullptr`. -/
def optional_view.toBool (o : optional_view) : Bool := o.target != none

/-- `optional_view::operator*` (view.hpp lines 251-254): returns `*target`
with no emptiness check (`noexcept`); the returned `T&` is modelled by its
address, which is `none` exactly when the proxy is empty (where the C++
dereference is undefined behaviour). -/
def optional_view.star (o : optional_view) : Ptr := o.target

/-- `optional_view::operator->` (view.hpp lines 256-259): returns the
stored pointer unchecked (`noexcept`). -/
def optional_view.arrow (o : optional_view) : Ptr := o.target

/-- `optional_view::value` (view.hpp lines 271-279): throws
`bad_optional_access` when the target is null, otherwise returns
`*target`. -/
def optional_view.value (o : optional_view) : Except CppError Nat :=
  match o.target with
  | none => .error .badOptionalAccess
  | some a => .ok a

/-- A call of the `const` member `value()` on an object: result paired
with the object after the call.  The body (view.hpp lines 271-279) only
reads `target`, so the object is returned unchanged. -/
def optional_view.value_call (o : optional_view) :
    Except CppError Nat × optional_view :=
  (o.value, o)

/-- `explicit operator T&()` (view.hpp lines 261-264): `return value();`,
so it performs the same emptiness check as `value`. -/
def optional_view.to_ref (o : optional_view) : Except CppError Nat :=
  o.value

/-- `optional_view::swap` (view.hpp lines 287-291). -/
def optional_view.swap (a b : optional_view) : optional_view × optional_view :=
  (⟨b.target⟩, ⟨a.target⟩)

/-- Copy assignment of `optional_view`: not declared in the class, hence
implicitly defaulted; it copies the single pointer member. -/
def optional_view.assign (_o src : optional_view) : optional_view :=
  ⟨src.target⟩

/-- `operator==(optional_view<T1> const&, optional_view<T2> const&)`
(view.hpp lines 300-304): `get_pointer(lhs) == get_pointer(rhs)`. -/
def optional_view.eq (a b : optional_view) : Bool := a.target == b.target

/-- `operator==(optional_view<T1> const&, view<T2> const&)` (view.hpp
lines 306-310). -/
def optional_view.eq_view (a : optional_view) (b : view) : Bool :=
  a.target == b.target

/-- `operator==(optional_view<T1> const&, T2 const&)` (view.hpp lines
318-322): `get_pointer(lhs) == &rhs`. -/
def optional_view.eq_ref (a : optional_view) (r : Nat) : Bool :=
  a.target == some r

/-- `operator==(optional_view<T> const&, nullopt_t)` (view.hpp lines
330-334): `!lhs`. -/
def optional_view.eq_nullopt (a : optional_view) : Bool := !a.toBool

/-- `operator!=(optional_view<T1> const&, optional_view<T2> const&)`
(view.hpp lines 342-346). -/
def optional_view.ne (a b : optional_view) : Bool := !(optional_view.eq a b)

/-- `operator<(optional_view<T1> const&, optional_view<T2> const&)`
(view.hpp lines 384-388): `std::less` over the common pointer type. -/
def optional_view.lt (a b : optional_view) : Bool :=
  ptrLess a.target b.target

/-- `indirect<T>` (indirect.hpp lines 62-126): holds `T* target`;
structurally the same as `view` but declared in its own header. -/
structure indirect where
  target : Ptr
deriving DecidableEq, Repr

/-- `optional_indirect<T>` (indirect.hpp lines 260-344). -/
structure optional_indirect where
  target : Ptr
deriving DecidableEq, Repr

/-- `indirect::throw_if_null` (indirect.hpp lines 72-81). -/
def indirect.throw_if_null (p : Ptr) : Except CppError Ptr :=
  match p with
  | none => .error (.invalidArgument "Cannot convert null pointer to indirect.")
  | some a => .ok (some a)

/-- `indirect(T& r) : target(&r)` (indirect.hpp lines 84-87). -/
def indirect.of_ref (r : Nat) : indirect := ⟨some r⟩

/-- `explicit indirect(T* p) : target(throw_if_null(p))` (indirect.hpp
lines 89-92). -/
def indirect.of_ptr (p : Ptr) : Except CppError indirect :=
  (indirect.throw_if_null p).map indirect.mk

/-- Converting constructor from `indirect<U>` (indirect.hpp lines
94-98). -/
def indirect.of_indirect (v : indirect) : indirect := ⟨v.target⟩

/-- `explicit indirect(optional_indirect<U> const& v) :
target(throw_if_null(get_pointer(v)))` (indirect.hpp lines 100-104). -/
def indirect.of_optional_indirect (o : optional_indirect) :
    Except CppError indirect :=
  (indirect.throw_if_null o.target).map indirect.mk

/-- `get_pointer(indirect<T> const&)` (indirect.hpp lines 152-156). -/
def indirect.get_pointer (v : indirect) : Ptr := v.target

/-- `indirect::swap` (indirect.hpp lines 121-125). -/
def indirect.swap (a b : indirect) : indirect × indirect :=
  (⟨b.target⟩, ⟨a.target⟩)

/-- `operator==(indirect<T1> const&, indirect<T2> const&)` (indirect.hpp
lines 170-174). -/
def indirect.eq (a b : indirect) : Bool := a.target == b.target

/-- The non-null invariant of `indirect`. -/
def indirect.inv (v : indirect) : Prop := v.target ≠ none

instance (v : indirect) : Decidable (indirect.inv v) := by
  unfold indirect.inv; infer_instance

/-- `optional_indirect() : target()` (indirect.hpp lines 271-274). -/
def optional_indirect.default_ctor : optional_indirect := ⟨none⟩

/-- `optional_indirect(nullopt_t) : target()` (indirect.hpp lines
276-279). -/
def optional_indirect.of_nullopt : optional_indirect := ⟨none⟩

/-- `optional_indirect(T& r) : target(&r)` (indirect.hpp lines
281-284). -/
def optional_indirect.of_ref (r : Nat) : optional_indirect := ⟨some r⟩

/-- `explicit optional_indirect(T* p) : target(p)` (indirect.hpp lines
286-289): no null check, `noexcept`. -/
def optional_indirect.of_ptr (p : Ptr) : optional_indirect := ⟨p⟩

/-- `get_pointer(optional_indirect<T> const&)` (indirect.hpp lines
370-374). -/
def optional_indirect.get_pointer (o : optional_indirect) : Ptr := o.target

/-- `explicit operator bool()` (indirect.hpp lines 303-306). -/
def optional_indirect.toBool (o : optional_indirect) : Bool :=
  o.target != none

/-- `optional_indirect::operator*` (indirect.hpp lines 308-311): returns
`*target` unchecked (`noexcept`). -/
def optional_indirect.star (o : optional_indirect) : Ptr := o.target

/-- `optional_indirect::operator->` (indirect.hpp lines 313-316): returns
the stored pointer unchecked (`noexcept`). -/
def optional_indirect.arrow (o : optional_indirect) : Ptr := o.target

/-- `optional_indirect::value` (indirect.hpp lines 323-331): throws
`bad_optional_access` when the target is null. -/
def optional_indirect.value (o : optional_indirect) : Except CppError Nat :=
  match o.target with
  | none => .error .badOptionalAccess
  | some a => .ok a

/-- A call of the `const` member `value()`: result paired with the object
after the call; the body only reads `target`. -/
def optional_indirect.value_call (o : optional_indirect) :
    Except CppError Nat × optional_indirect :=
  (o.value, o)

/-- Copy assignment of `optional_indirect`: implicitly defaulted, copies
the pointer member. -/
def optional_indirect.assign (_o src : optional_indirect) :
    optional_indirect :=
  ⟨src.target⟩

/-- `nullref_t` / `optional_ref<T>` (optional_ref.hpp lines 29-92):
holds `T* target`. -/
structure optional_ref where
  target : Ptr
deriving DecidableEq, Repr

/-- `optional_ref() : target()` (optional_ref.hpp lines 46-49). -/
def optional_ref.default_ctor : optional_ref := ⟨none⟩

/-- `optional_ref(nullref_t) : target()` (optional_ref.hpp lines
51-54). -/
def optional_ref.of_nullref : optional_ref := ⟨none⟩

/-- `optional_ref(T& r) : target(&r)` (optional_ref.hpp lines 56-59). -/
def optional_ref.of_ref (r : Nat) : optional_ref := ⟨some r⟩

/-- `optional_ref::operator*` (optional_ref.hpp lines 68-71): returns
`*target` unchecked (`noexcept`). -/
def optional_ref.star (o : optional_ref) : Ptr := o.target

/-- `optional_ref::operator->` (optional_ref.hpp lines 73-76): returns
the stored pointer unchecked (`noexcept`). -/
def optional_ref.arrow (o : optional_ref) : Ptr := o.target

/-- `optional_ref::has_value` (optional_ref.hpp lines 78-81). -/
def optional_ref.has_value (o : optional_ref) : Bool := o.target != none

/-- Whether `optional_ref` objects can be assigned to:
`optional_ref& operator=(optional_ref const&) = delete;`
(optional_ref.hpp line 60), and no other assignment operator is declared,
so every assignment to an `optional_ref` is rejected at compile time. -/
def optional_ref.assign_available : Bool := false

/-- Whether `optional_view` objects can be assigned to: the class declares
no assignment operator (view.hpp lines 198-292), so copy assignment is
implicitly defaulted and usable. -/
def optional_view.assign_available : Bool := true

/-- Whether `optional_indirect` objects can be assigned to: implicitly
defaulted (indirect.hpp lines 260-344). -/
def optional_indirect.assign_available : Bool := true

/-! ## Run-time type information and the cast free functions

The test suites exercise the casts over a single-inheritance hierarchy
(`struct base; struct derived : base;` plus unrelated classes in
view_tests.cpp).  `Ty` is the dynamic type of an object and `isA t u`
decides whether an object of dynamic type `t` is a `u`, which is exactly
the success condition of a C++ `dynamic_cast` to `u` over that
hierarchy. -/
inductive Ty where
  | base
  | derived
  | other
deriving DecidableEq, Repr

/-- Subobject relation of the modelled hierarchy: every type is itself,
and `derived` is a `base`. -/
def isA (t u : Ty) : Bool := t == u || (t == .derived && u == .base)

/-- `dynamic_cast<T*>(p)` over the modelled hierarchy, given the dynamic
type `dynOf a` of the object at each address `a`: null maps to null, and
a non-null pointer maps to itself when the runtime check succeeds and to
null when it fails. -/
def dynPtrCast (dynOf : Nat → Ty) (tgt : Ty) : Ptr → Ptr
  | none => none
  | some a => if isA (dynOf a) tgt then some a else none

/-- In this flat object model an upcast or downcast between `base` and
`derived` lvalues preserves the object's address, so
`static_cast<T&>(*v)` followed by the `view(T&)` constructor rewraps the
same address: `static_view_cast` (view.hpp lines 420-424). -/
def static_view_cast (v : view) : view := ⟨v.target⟩

/-- `dynamic_view_cast<T>(view<U> const& v)` (view.hpp lines 426-430):
`return dynamic_cast<T&>(*v);` — the reference form of `dynamic_cast`
throws `std::bad_cast` when the runtime check fails, and the result is
rewrapped by the `view(T&)` constructor.  The `none` branch is
unreachable for any argument satisfying the non-null invariant
(`view.inv`); dereferencing a null target would be undefined behaviour
in the source, and every theorem below assumes a non-null target. -/
def dynamic_view_cast (dynOf : Nat → Ty) (tgt : Ty) (v : view) :
    Except CppError view :=
  match v.target with
  | none => .error .badCast
  | some a =>
      if isA (dynOf a) tgt then .ok (view.of_ref a) else .error .badCast

/-- `dynamic_view_cast<T>(optional_view<U> const& v)` (view.hpp lines
444-448): `return optional_view<T>(dynamic_cast<T*>(get_pointer(v)));` —
the pointer form of `dynamic_cast` never throws; a failed check yields a
null pointer and hence an empty `optional_view`. -/
def dynamic_view_cast_opt (dynOf : Nat → Ty) (tgt : Ty)
    (o : optional_view) : optional_view :=
  optional_view.of_ptr (dynPtrCast dynOf tgt o.target)

/-- The `optional_view` overload of `dynamic_view_cast` is declared
`noexcept` (view.hpp line 445). -/
def dynamic_view_cast_opt_noexcept : Bool := true

/-- The `view` overload of `dynamic_view_cast` carries no `noexcept`
specifier (view.hpp lines 426-430): it may throw. -/
def dynamic_view_cast_view_noexcept : Bool := false

/-! ## `noexcept` specifiers of the unchecked accessors (view.hpp lines
251-259, indirect.hpp lines 308-316, optional_ref.hpp lines 68-76) and of
the checking accessors (view.hpp lines 261-279, indirect.hpp lines
323-331, which carry no `noexcept`). -/

/-- `optional_view::operator*` is declared `noexcept` (view.hpp 251). -/
def optional_view.star_noexcept : Bool := true

/-- `optional_view::operator->` is declared `noexcept` (view.hpp 256). -/
def optional_view.arrow_noexcept : Bool := true

/-- `optional_view::value` carries no `noexcept` (view.hpp 271). -/
def optional_view.value_noexcept : Bool := false

/-- `explicit operator T&()` carries no `noexcept` (view.hpp 261). -/
def optional_view.to_ref_noexcept : Bool := false

/-- `optional_indirect::operator*` is declared `noexcept`
(indirect.hpp 308). -/
def optional_indirect.star_noexcept : Bool := true

/-- `optional_indirect::operator->` is declared `noexcept`
(indirect.hpp 313). -/
def optional_indirect.arrow_noexcept : Bool := true

/-- `optional_indirect::value` carries no `noexcept` (indirect.hpp 323). -/
def optional_indirect.value_noexcept : Bool := false

/-- `optional_ref::operator*` is declared `noexcept`
(optional_ref.hpp 68). -/
def optional_ref.star_noexcept : Bool := true

/-- `optional_ref::operator->` is declared `noexcept`
(optional_ref.hpp 73). -/
def optional_ref.arrow_noexcept : Bool := true

/-! ## Construction from an rvalue referent (compile-time behaviour)

Constructor sets, from the source:
* `view<T>` declares `view(T&)` and `explicit view(T*)` (view.hpp lines
  83-91) and no `T&&` overload;
* `indirect<T>` likewise (indirect.hpp lines 84-92);
* `observer<T>` declares `observer(T&)` and `observer(T&&) = delete`
  (observer.hpp lines 52-58).

C++ reference binding: an rvalue of type `T` cannot bind to `T&` unless
`T` is const-qualified; it always binds to `T&&`, and a deleted `T&&`
overload is preferred over the `T&` overload for an rvalue argument, so
selecting it makes the program ill-formed. -/

/-- Outcome of overload resolution when a non-optional proxy is
constructed from an rvalue referent of type `T`. -/
inductive RvalueCtor where
  | noViable
  | deletedSelected
  | binds
deriving DecidableEq, Repr

/-- The three non-optional proxy families. -/
inductive ProxyFamily where
  | viewF
  | indirectF
  | observerF
deriving DecidableEq, Repr

/-- Overload resolution for constructing a proxy of the given family from
an rvalue referent, as a function of whether `T` is const-qualified.
`view`/`indirect`: the only referent-taking constructor is `T&`, which
binds an rvalue exactly when `T` is const-qualified.  `observer`: the
deleted `T&&` overload is selected for every rvalue. -/
def rvalueCtor : ProxyFamily → Bool → RvalueCtor
  | .viewF, c => if c then .binds else .noViable
  | .indirectF, c => if c then .binds else .noViable
  | .observerF, _ => .deletedSelected

/-- A construction is rejected at compile time when overload resolution
finds no viable constructor or selects a deleted one. -/
def rejectedAtCompileTime (f : ProxyFamily) (constQualified : Bool) : Bool :=
  rvalueCtor f constQualified != .binds

/-! ## `propagate_const` type computations (propagate_const.hpp)

`propagate_const<T>` computes its operator return types from the trait
`detail::propagate_const_traits<T>` (propagate_const.hpp lines 37-52):
the generic definition reads `T::const_type` and the return types of
`T`'s member `operator->` / `operator*`, and a specialization covers raw
pointers `T*`.  The model below mirrors those type-level computations
over a universe of const-qualified value types. -/

/-- A possibly const-qualified C++ value type: `isConst` is the
const-qualification, `tyid` identifies the underlying class. -/
structure QTy where
  isConst : Bool
  tyid : Nat
deriving DecidableEq, Repr

/-- `std::add_const_t` / `T const`. -/
def QTy.addConst (t : QTy) : QTy := ⟨true, t.tyid⟩

/-- A C++ type appearing as an operator return type: a pointer `T*` or a
reference `T&`. -/
inductive CppTy where
  | ptr (t : QTy)
  | ref (t : QTy)
deriving DecidableEq, Repr

/-- The proxy class templates that `propagate_const` can wrap, applied to
a value type. -/
inductive ProxyTy where
  | viewT (t : QTy)
  | optionalViewT (t : QTy)
  | indirectT (t : QTy)
  | optionalIndirectT (t : QTy)
  | observerT (t : QTy)
deriving DecidableEq, Repr

/-- The value type `T` of each proxy class. -/
def ProxyTy.valueType : ProxyTy → QTy
  | .viewT t => t
  | .optionalViewT t => t
  | .indirectT t => t
  | .optionalIndirectT t => t
  | .observerT t => t

/-- The member `const_type` of each proxy class:
`view<T>::const_type = view<T const>` (view.hpp 66),
`optional_view<T>::const_type = optional_view<T const>` (view.hpp 203),
`indirect<T>::const_type = indirect<add_const_t<T>>` (indirect.hpp 67),
`optional_indirect<T>::const_type = optional_indirect<T const>`
(indirect.hpp 265),
`observer<T>::const_type = observer<add_const_t<T>>` (observer.hpp 47). -/
def ProxyTy.const_type : ProxyTy → ProxyTy
  | .viewT t => .viewT t.addConst
  | .optionalViewT t => .optionalViewT t.addConst
  | .indirectT t => .indirectT t.addConst
  | .optionalIndirectT t => .optionalIndirectT t.addConst
  | .observerT t => .observerT t.addConst

/-- The return type of each proxy's member `operator->`: every proxy
returns `T*` (view.hpp 110-113, 256-259, indirect.hpp 111-114, 313-316,
observer.hpp 71-74). -/
def ProxyTy.arrowType (p : ProxyTy) : CppTy := .ptr p.valueType

/-- The return type of each proxy's member `operator*`: every proxy
returns `T&` (view.hpp 105-108, 251-254, indirect.hpp 106-109, 308-311,
observer.hpp 66-69). -/
def ProxyTy.starType (p : ProxyTy) : CppTy := .ref p.valueType

/-- A pointer-like type `T` wrappable by `propagate_const<T>`: a raw
pointer or any of the proxy types. -/
inductive PtrLike where
  | raw (t : QTy)
  | proxy (p : ProxyTy)
deriving DecidableEq, Repr

/-- The referent value type of a pointer-like type. -/
def PtrLike.valueType : PtrLike → QTy
  | .raw t => t
  | .proxy p => p.valueType

/-- `propagate_const_traits<T>::const_type` (propagate_const.hpp lines
39, 47): the member `const_type` for proxies, `T const*` for raw
pointers. -/
def traits_const_type : PtrLike → PtrLike
  | .proxy p => .proxy p.const_type
  | .raw t => .raw t.addConst

/-- `propagate_const_traits<T>::pointer_type =
decltype(declval<T&>().operator->())` (line 41); `T*` for raw pointers
(line 49). -/
def traits_pointer_type : PtrLike → CppTy
  | .proxy p => p.arrowType
  | .raw t => .ptr t

/-- `propagate_const_traits<T>::const_pointer_type =
decltype(declval<const_type&>().operator->())` (line 40); `T const*` for
raw pointers (line 48). -/
def traits_const_pointer_type : PtrLike → CppTy
  | .proxy p => p.const_type.arrowType
  | .raw t => .ptr t.addConst

/-- `propagate_const_traits<T>::reference_type =
decltype(declval<T&>().operator*())` (line 43); `T&` for raw pointers
(line 51). -/
def traits_reference_type : PtrLike → CppTy
  | .proxy p => p.starType
  | .raw t => .ref t

/-- `propagate_const_traits<T>::const_reference_type =
decltype(declval<const_type&>().operator*())` (line 42); `T const&` for
raw pointers (line 50). -/
def traits_const_reference_type : PtrLike → CppTy
  | .proxy p => p.const_type.starType
  | .raw t => .ref t.addConst

/-- Return type of `propagate_const<T>::operator*() const`
(propagate_const.hpp line 167): `const_reference_type`. -/
def pc_star_const_type (T : PtrLike) : CppTy := traits_const_reference_type T

/-- Return type of the non-const `propagate_const<T>::operator*`
(line 168): `reference_type`. -/
def pc_star_type (T : PtrLike) : CppTy := traits_reference_type T

/-- Return type of `propagate_const<T>::operator->() const` (line 170):
`const_pointer_type`. -/
def pc_arrow_const_type (T : PtrLike) : CppTy := traits_const_pointer_type T

/-- Return type of the non-const `propagate_const<T>::operator->`
(line 171): `pointer_type`. -/
def pc_arrow_type (T : PtrLike) : CppTy := traits_pointer_type T

/-- The value type a `CppTy` points or refers to. -/
def CppTy.valueType : CppTy → QTy
  | .ptr t => t
  | .ref t => t

/-! ## Theorems -/

/-- C1: for the non-optional proxies `view` and `indirect`, the stored
address is non-null at all times: the pointer constructor throws
`std::invalid_argument` on a null pointer and stores the address
otherwise; the explicit constructor from an optional proxy throws on an
empty one and stores the address otherwise; the reference constructor
stores the referent's address; and converting construction and `swap`
preserve non-nullness. -/
theorem C1_nonoptional_nonnull_invariant :
    (view.of_ptr none =
      .error (.invalidArgument "Cannot convert null pointer to view.")) ∧
    (∀ a : Nat, view.of_ptr (some a) = .ok ⟨some a⟩) ∧
    (∀ r : Nat, (view.of_ref r).inv ∧ (view.of_ref r).target = some r) ∧
    (∀ o : optional_view, o.target = none → view.of_optional_view o =
      .error (.invalidArgument "Cannot convert null pointer to view.")) ∧
    (∀ (o : optional_view) (a : Nat), o.target = some a →
      view.of_optional_view o = .ok ⟨some a⟩) ∧
    (∀ v : view, v.inv → (view.of_view v).inv) ∧
    (∀ a b : view, a.inv → b.inv →
      (view.swap a b).1.inv ∧ (view.swap a b).2.inv) ∧
    (indirect.of_ptr none =
      .error (.invalidArgument "Cannot convert null pointer to indirect.")) ∧
    (∀ a : Nat, indirect.of_ptr (some a) = .ok ⟨some a⟩) ∧
    (∀ r : Nat,
      (indirect.of_ref r).inv ∧ (indirect.of_ref r).target = some r) ∧
    (∀ o : optional_indirect, o.target = none →
      indirect.of_optional_indirect o =
      .error (.invalidArgument "Cannot convert null pointer to indirect.")) ∧
    (∀ (o : optional_indirect) (a : Nat), o.target = some a →
      indirect.of_optional_indirect o = .ok ⟨some a⟩) ∧
    (∀ v : indirect, v.inv → (indirect.of_indirect v).inv) ∧
    (∀ a b : indirect, a.inv → b.inv →
      (indirect.swap a b).1.inv ∧ (indirect.swap a b).2.inv) := by
  refine ⟨rfl, fun a => rfl, fun r => ⟨Option.some_ne_none r, rfl⟩,
    fun o h => ?_, fun o a h => ?_, fun v h => ?_, fun a b ha hb => ?_,
    rfl, fun a => rfl, fun r => ⟨Option.some_ne_none r, rfl⟩,
    fun o h => ?_, fun o a h => ?_, fun v h => ?_, fun a b ha hb => ?_⟩
  · simp [view.of_optional_view, view.throw_if_null, h, Except.map]
  · simp [view.of_optional_view, view.throw_if_null, h, Except.map]
  · simpa [view.of_view, view.inv] using h
  · exact ⟨hb, ha⟩
  · simp [indirect.of_optional_indirect, indirect.throw_if_null, h,
      Except.map]
  · simp [indirect.of_optional_indirect, indirect.throw_if_null, h,
      Except.map]
  · simpa [indirect.of_indirect, indirect.inv] using h
  · exact ⟨hb, ha⟩

/-- Witness for C1 at concrete inputs: an engaged `optional_view` at
address 3 converts to a `view` holding 3, and the invariant-preservation
parts hold for concrete views at addresses 5 and 7. -/
theorem C1_nonoptional_nonnull_invariant_witness :
    ((⟨some 3⟩ : optional_view).target = some 3 ∧
      view.of_optional_view ⟨some 3⟩ = .ok ⟨some 3⟩) ∧
    ((⟨none⟩ : optional_view).target = none ∧
      view.of_optional_view ⟨none⟩ =
        .error (.invalidArgument "Cannot convert null pointer to view.")) ∧
    ((view.of_ref 5).inv ∧ (view.of_view (view.of_ref 5)).inv) ∧
    ((view.swap (view.of_ref 5) (view.of_ref 7)).1.inv ∧
      (view.swap (view.of_ref 5) (view.of_ref 7)).2.inv) ∧
    ((⟨some 3⟩ : optional_indirect).target = some 3 ∧
      indirect.of_optional_indirect ⟨some 3⟩ = .ok ⟨some 3⟩) ∧
    ((indirect.of_ref 5).inv ∧
      (indirect.of_indirect (indirect.of_ref 5)).inv) ∧
    ((indirect.swap (indirect.of_ref 5) (indirect.of_ref 7)).1.inv ∧
      (indirect.swap (indirect.of_ref 5) (indirect.of_ref 7)).2.inv) := by
  refine ⟨⟨rfl, ?_⟩, ⟨rfl, ?_⟩, ⟨?_, ?_⟩, ?_, ⟨rfl, ?_⟩, ⟨?_, ?_⟩, ?_⟩
  · exact C1_nonoptional_nonnull_invariant.2.2.2.2.1 ⟨some 3⟩ 3 rfl
  · exact C1_nonoptional_nonnull_invariant.2.2.2.1 ⟨none⟩ rfl
  · exact (C1_nonoptional_nonnull_invariant.2.2.1 5).1
  · exact C1_nonoptional_nonnull_invariant.2.2.2.2.2.1 (view.of_ref 5)
      (by decide)
  · exact C1_nonoptional_nonnull_invariant.2.2.2.2.2.2.1 (view.of_ref 5)
      (view.of_ref 7) (by decide) (by decide)
  · exact C1_nonoptional_nonnull_invariant.2.2.2.2.2.2.2.2.2.2.2.1
      ⟨some 3⟩ 3 rfl
  · exact (C1_nonoptional_nonnull_invariant.2.2.2.2.2.2.2.2.2.1 5).1
  · exact C1_nonoptional_nonnull_invariant.2.2.2.2.2.2.2.2.2.2.2.2.1
      (indirect.of_ref 5) (by decide)
  · exact C1_nonoptional_nonnull_invariant.2.2.2.2.2.2.2.2.2.2.2.2.2
      (indirect.of_ref 5) (indirect.of_ref 7) (by decide) (by decide)

/-- C2: for `optional_view` and `optional_indirect`, `value()` throws
`bad_optional_access` exactly when the proxy is empty; on an engaged
proxy it returns the referent (its address) without error; and the call,
being a `const` member that only reads `target`, leaves the proxy
unchanged in both cases. -/
theorem C2_value_throws_iff_empty :
    (∀ o : optional_view,
      (o.value_call.1 = .error .badOptionalAccess ↔ o.target = none) ∧
      (∀ a : Nat, o.target = some a → o.value_call.1 = .ok a) ∧
      o.value_call.2 = o) ∧
    (∀ o : optional_indirect,
      (o.value_call.1 = .error .badOptionalAccess ↔ o.target = none) ∧
      (∀ a : Nat, o.target = some a → o.value_call.1 = .ok a) ∧
      o.value_call.2 = o) := by
  constructor
  · intro o
    refine ⟨?_, fun a h => ?_, rfl⟩
    · cases h : o.target <;>
        simp [optional_view.value_call, optional_view.value, h]
    · simp [optional_view.value_call, optional_view.value, h]
  · intro o
    refine ⟨?_, fun a h => ?_, rfl⟩
    · cases h : o.target <;>
        simp [optional_indirect.value_call, optional_indirect.value, h]
    · simp [optional_indirect.value_call, optional_indirect.value, h]

/-- Witness for C2 at concrete inputs: an empty and an engaged
`optional_view` (and `optional_indirect`) at address 5. -/
theorem C2_value_throws_iff_empty_witness :
    ((⟨none⟩ : optional_view).value_call.1 =
      .error .badOptionalAccess) ∧
    ((⟨some 5⟩ : optional_view).value_call.1 = .ok 5) ∧
    ((⟨some 5⟩ : optional_view).value_call.2 =
      (⟨some 5⟩ : optional_view)) ∧
    ((⟨none⟩ : optional_indirect).value_call.1 =
      .error .badOptionalAccess) ∧
    ((⟨some 5⟩ : optional_indirect).value_call.1 = .ok 5) := by
  refine ⟨?_, ?_, ?_, ?_, ?_⟩
  · exact ((C2_value_throws_iff_empty.1 ⟨none⟩).1).mpr rfl
  · exact (C2_value_throws_iff_empty.1 ⟨some 5⟩).2.1 5 rfl
  · exact (C2_value_throws_iff_empty.1 ⟨some 5⟩).2.2
  · exact ((C2_value_throws_iff_empty.2 ⟨none⟩).1).mpr rfl
  · exact (C2_value_throws_iff_empty.2 ⟨some 5⟩).2.1 5 rfl

/-- C3: proxy equality is pointer identity: `a == b` holds exactly when
the held addresses coincide (the comparison functions read only the
stored addresses, never any referent value); a freshly constructed
`view` over a referent `x` satisfies `v == x` and `&*v == &x`; and
`v != y` for every referent `y` at a different address. -/
theorem C3_equality_is_pointer_identity :
    (∀ a b : view, view.eq a b = true ↔ a.target = b.target) ∧
    (∀ a b : indirect, indirect.eq a b = true ↔ a.target = b.target) ∧
    (∀ x : Nat, view.eq_ref (view.of_ref x) x = true ∧
      view.star (view.of_ref x) = some x) ∧
    (∀ x y : Nat, y ≠ x →
      view.eq_ref (view.of_ref x) y = false ∧
      view.ne_ref (view.of_ref x) y = true) := by
  refine ⟨fun a b => ?_, fun a b => ?_, fun x => ⟨?_, rfl⟩,
    fun x y h => ?_⟩
  · simp [view.eq]
  · simp [indirect.eq]
  · simp [view.eq_ref, view.of_ref]
  · constructor <;>
      simp [view.eq_ref, view.ne_ref, view.of_ref] <;>
      exact fun hxy => h hxy.symm

/-- Witness for C3 at concrete inputs: a view over address 1 equals its
referent and differs from the referent at address 2. -/
theorem C3_equality_is_pointer_identity_witness :
    ((2 : Nat) ≠ 1) ∧
    (view.eq_ref (view.of_ref 1) 1 = true) ∧
    (view.eq_ref (view.of_ref 1) 2 = false ∧
      view.ne_ref (view.of_ref 1) 2 = true) := by
  refine ⟨by decide, ?_, ?_⟩
  · exact (C3_equality_is_pointer_identity.2.2.1 1).1
  · exact C3_equality_is_pointer_identity.2.2.2 1 2 (by decide)

/-- C4: `dynamic_view_cast` on a non-optional `view` throws
(`std::bad_cast`) when the referent's dynamic type fails the runtime
check for the target type and succeeds otherwise; on an
`optional_view` it never throws (it is a total function and is declared
`noexcept`): a failed check yields the empty state, a successful check
an engaged proxy to the same referent, and an empty input stays empty. -/
theorem C4_dynamic_cast_throws_vs_empty :
    (∀ (dynOf : Nat → Ty) (tgt : Ty) (v : view) (a : Nat),
      v.target = some a →
      (isA (dynOf a) tgt = false →
        dynamic_view_cast dynOf tgt v = .error .badCast) ∧
      (isA (dynOf a) tgt = true →
        dynamic_view_cast dynOf tgt v = .ok (view.of_ref a))) ∧
    (∀ (dynOf : Nat → Ty) (tgt : Ty) (o : optional_view) (a : Nat),
      o.target = some a →
      (isA (dynOf a) tgt = false →
        (dynamic_view_cast_opt dynOf tgt o).target = none) ∧
      (isA (dynOf a) tgt = true →
        dynamic_view_cast_opt dynOf tgt o = optional_view.of_ref a)) ∧
    (∀ (dynOf : Nat → Ty) (tgt : Ty) (o : optional_view),
      o.target = none → (dynamic_view_cast_opt dynOf tgt o).target = none) ∧
    dynamic_view_cast_opt_noexcept = true ∧
    dynamic_view_cast_view_noexcept = false := by
  refine ⟨fun dynOf tgt v a h => ⟨fun hc => ?_, fun hc => ?_⟩,
    fun dynOf tgt o a h => ⟨fun hc => ?_, fun hc => ?_⟩,
    fun dynOf tgt o h => ?_, rfl, rfl⟩
  · simp [dynamic_view_cast, h, hc]
  · simp [dynamic_view_cast, h, hc]
  · simp [dynamic_view_cast_opt, dynPtrCast, optional_view.of_ptr, h, hc]
  · simp [dynamic_view_cast_opt, dynPtrCast, optional_view.of_ptr,
      optional_view.of_ref, h, hc]
  · simp [dynamic_view_cast_opt, dynPtrCast, optional_view.of_ptr, h]

/-- Witness for C4 at concrete inputs: with every object of dynamic type
`other`, a downcast to `base` fails — the `view` overload throws and the
`optional_view` overload yields the empty state; with every object of
dynamic type `derived`, the downcast to `base` succeeds on both. -/
theorem C4_dynamic_cast_throws_vs_empty_witness :
    (dynamic_view_cast (fun _ => Ty.other) Ty.base (view.of_ref 4) =
      .error .badCast) ∧
    (dynamic_view_cast (fun _ => Ty.derived) Ty.base (view.of_ref 4) =
      .ok (view.of_ref 4)) ∧
    ((dynamic_view_cast_opt (fun _ => Ty.other) Ty.base
      (optional_view.of_ref 4)).target = none) ∧
    (dynamic_view_cast_opt (fun _ => Ty.derived) Ty.base
      (optional_view.of_ref 4) = optional_view.of_ref 4) ∧
    ((dynamic_view_cast_opt (fun _ => Ty.other) Ty.base
      (⟨none⟩ : optional_view)).target = none) := by
  refine ⟨?_, ?_, ?_, ?_, ?_⟩
  · exact (C4_dynamic_cast_throws_vs_empty.1 (fun _ => Ty.other) Ty.base
      (view.of_ref 4) 4 rfl).1 (by decide)
  · exact (C4_dynamic_cast_throws_vs_empty.1 (fun _ => Ty.derived) Ty.base
      (view.of_ref 4) 4 rfl).2 (by decide)
  · exact (C4_dynamic_cast_throws_vs_empty.2.1 (fun _ => Ty.other) Ty.base
      (optional_view.of_ref 4) 4 rfl).1 (by decide)
  · exact (C4_dynamic_cast_throws_vs_empty.2.1 (fun _ => Ty.derived)
      Ty.base (optional_view.of_ref 4) 4 rfl).2 (by decide)
  · exact C4_dynamic_cast_throws_vs_empty.2.2.1 (fun _ => Ty.other)
      Ty.base ⟨none⟩ rfl

/-- C5: comparison of `optional_view` values: two empty optionals are
equal; an empty and an engaged one are unequal; two engaged ones are
equal exactly when their referent addresses coincide; an empty optional
orders strictly below every engaged one and is never less than itself;
an engaged one is never less than an empty one; and a proxy equals
`nullopt` exactly when it is empty. -/
theorem C5_optional_comparisons :
    (optional_view.eq ⟨none⟩ ⟨none⟩ = true) ∧
    (∀ a : Nat, optional_view.eq ⟨none⟩ ⟨some a⟩ = false ∧
      optional_view.eq ⟨some a⟩ ⟨none⟩ = false ∧
      optional_view.ne ⟨none⟩ ⟨some a⟩ = true) ∧
    (∀ a b : Nat, optional_view.eq ⟨some a⟩ ⟨some b⟩ = true ↔ a = b) ∧
    (∀ a : Nat, optional_view.lt ⟨none⟩ ⟨some a⟩ = true) ∧
    (optional_view.lt ⟨none⟩ ⟨none⟩ = false) ∧
    (∀ a : Nat, optional_view.lt ⟨some a⟩ ⟨none⟩ = false) ∧
    (∀ o : optional_view, optional_view.eq_nullopt o = true ↔
      o.target = none) := by
  refine ⟨rfl, fun a => ⟨rfl, rfl, rfl⟩, fun a b => ?_, fun a => rfl,
    rfl, fun a => rfl, fun o => ?_⟩
  · simp [optional_view.eq]
  · cases h : o.target <;>
      simp [optional_view.eq_nullopt, optional_view.toBool, h]

/-- C6: accessing a `propagate_const<T>` through a const path with `*`
or `->` yields the reference/pointer type of `T`'s associated
`const_type` — a const-qualified view of the referent — while the
non-const path yields `T`'s own mutable reference/pointer type. -/
theorem C6_const_propagation :
    ∀ T : PtrLike,
      pc_star_const_type T = traits_reference_type (traits_const_type T) ∧
      pc_arrow_const_type T = traits_pointer_type (traits_const_type T) ∧
      (pc_star_const_type T).valueType.isConst = true ∧
      (pc_arrow_const_type T).valueType.isConst = true ∧
      pc_star_type T = CppTy.ref T.valueType ∧
      pc_arrow_type T = CppTy.ptr T.valueType := by
  intro T
  cases T with
  | raw t => exact ⟨rfl, rfl, rfl, rfl, rfl, rfl⟩
  | proxy p =>
      cases p <;> exact ⟨rfl, rfl, rfl, rfl, rfl, rfl⟩

/-- C7: upcasting a referent of derived type to a base-typed `view` and
then applying `static_view_cast` back to the derived type yields a proxy
equal (by referent identity) to the original referent. -/
theorem C7_static_cast_round_trip :
    ∀ d : Nat,
      static_view_cast (view.of_view (view.of_ref d)) = view.of_ref d ∧
      view.eq_ref (static_view_cast (view.of_view (view.of_ref d))) d =
        true ∧
      view.eq (static_view_cast (view.of_view (view.of_ref d)))
        (view.of_ref d) = true := by
  intro d
  refine ⟨rfl, ?_, ?_⟩
  · simp [static_view_cast, view.of_view, view.of_ref, view.eq_ref]
  · simp [static_view_cast, view.of_view, view.of_ref, view.eq]

/-- C8 counterexample: the claim includes `optional_ref` among the
proxies whose state changes on assignment ("assigning the empty sentinel
(... nullref for optional_ref)"), but `optional_ref`'s only assignment
operator is explicitly deleted (optional_ref.hpp line 60), so no
assignment to an `optional_ref` compiles and the claimed
assignment-driven transitions do not exist for it. -/
theorem C8_counterexample : optional_ref.assign_available = false := rfl

/-- C8 (amended): for `optional_view` and `optional_indirect`, assigning
a reference makes the proxy engaged on that referent and assigning the
empty sentinel (or default-constructing) yields the empty state, from
any prior state; `optional_ref`'s copy assignment is deleted, so its
state is fixed at construction: default- or `nullref`-construction
yields the empty state and reference-construction the engaged state. -/
theorem C8_optional_state_transitions :
    (∀ (o : optional_view) (r : Nat),
      (optional_view.assign o (optional_view.of_ref r)).target = some r) ∧
    (∀ o : optional_view,
      (optional_view.assign o optional_view.of_nullopt).target = none) ∧
    (optional_view.default_ctor.target = none) ∧
    optional_view.assign_available = true ∧
    (∀ (o : optional_indirect) (r : Nat),
      (optional_indirect.assign o
        (optional_indirect.of_ref r)).target = some r) ∧
    (∀ o : optional_indirect,
      (optional_indirect.assign o
        optional_indirect.of_nullopt).target = none) ∧
    (optional_indirect.default_ctor.target = none) ∧
    optional_indirect.assign_available = true ∧
    (optional_ref.default_ctor.target = none) ∧
    (optional_ref.of_nullref.target = none) ∧
    (∀ r : Nat, (optional_ref.of_ref r).target = some r) ∧
    optional_ref.assign_available = false :=
  ⟨fun _ _ => rfl, fun _ => rfl, rfl, rfl, fun _ _ => rfl, fun _ => rfl,
    rfl, rfl, rfl, rfl, fun _ => rfl, rfl⟩

/-- C9 counterexample: the claim says construction of every non-optional
proxy from an rvalue referent must fail to compile, but for `view<T>`
with const-qualified `T` the implicit `view(T&)` constructor (view.hpp
line 83) binds the temporary — a C++ rvalue binds to `T&` when `T` is
const-qualified and `view` declares no deleted `T&&` overload — so the
construction compiles. -/
theorem C9_counterexample :
    rejectedAtCompileTime ProxyFamily.viewF true = false := rfl

/-- C9 (amended): `observer` rejects construction from any rvalue
referent at compile time via its deleted `T&&` constructor; `view` and
`indirect`, which declare no `T&&` overload, reject it exactly when `T`
is not const-qualified (no constructor binds a non-const rvalue), while
for const-qualified `T` their `T&` constructor binds the temporary and
the construction compiles. -/
theorem C9_rvalue_construction_compile_time :
    (∀ c : Bool, rvalueCtor .observerF c = .deletedSelected ∧
      rejectedAtCompileTime .observerF c = true) ∧
    (rvalueCtor .viewF false = .noViable ∧
      rejectedAtCompileTime .viewF false = true) ∧
    (rvalueCtor .indirectF false = .noViable ∧
      rejectedAtCompileTime .indirectF false = true) ∧
    (rvalueCtor .viewF true = .binds ∧
      rejectedAtCompileTime .viewF true = false) ∧
    (rvalueCtor .indirectF true = .binds ∧
      rejectedAtCompileTime .indirectF true = false) := by
  decide

/-- C10: on every empty optional proxy (`optional_view`,
`optional_indirect`, `optional_ref`), the dereference operators `*` and
`->` perform no emptiness check — they are total functions returning the
null address rather than an error — and all are declared `noexcept`;
only `value()` (on `optional_view` and `optional_indirect`) and, for
`optional_view`, the explicit conversion to `T&` check for emptiness,
and those checking accessors carry no `noexcept`. -/
theorem C10_unchecked_dereference :
    (∀ o : optional_view, o.target = none →
      o.star = none ∧ o.arrow = none ∧
      o.value = .error .badOptionalAccess ∧
      o.to_ref = .error .badOptionalAccess) ∧
    (∀ o : optional_indirect, o.target = none →
      o.star = none ∧ o.arrow = none ∧
      o.value = .error .badOptionalAccess) ∧
    (∀ o : optional_ref, o.target = none →
      o.star = none ∧ o.arrow = none) ∧
    optional_view.star_noexcept = true ∧
    optional_view.arrow_noexcept = true ∧
    optional_indirect.star_noexcept = true ∧
    optional_indirect.arrow_noexcept = true ∧
    optional_ref.star_noexcept = true ∧
    optional_ref.arrow_noexcept = true ∧
    optional_view.value_noexcept = false ∧
    optional_view.to_ref_noexcept = false ∧
    optional_indirect.value_noexcept = false := by
  refine ⟨fun o h => ?_, fun o h => ?_, fun o h => ?_,
    rfl, rfl, rfl, rfl, rfl, rfl, rfl, rfl, rfl⟩
  · exact ⟨h, h, by simp [optional_view.value, h],
      by simp [optional_view.to_ref, optional_view.value, h]⟩
  · exact ⟨h, h, by simp [optional_indirect.value, h]⟩
  · exact ⟨h, h⟩

/-- Witness for C10 at the concrete empty proxies. -/
theorem C10_unchecked_dereference_witness :
    ((⟨none⟩ : optional_view).star = none ∧
      (⟨none⟩ : optional_view).value = .error .badOptionalAccess) ∧
    ((⟨none⟩ : optional_indirect).arrow = none) ∧
    ((⟨none⟩ : optional_ref).star = none) := by
  refine ⟨?_, ?_, ?_⟩
  · exact ⟨(C10_unchecked_dereference.1 ⟨none⟩ rfl).1,
      (C10_unchecked_dereference.1 ⟨none⟩ rfl).2.2.1⟩
  · exact (C10_unchecked_dereference.2.1 ⟨none⟩ rfl).2.1
  · exact (C10_unchecked_dereference.2.2.1 ⟨none⟩ rfl).1

end GslPointers
